import Mathlib

/-!
Verification of the URL-shortener backend (MERN_edu_project).

This file gives a shallow embedding of the backend's request-handling
core and proves properties of it:

* `src/backend/src/middlewares/authenticated.ts` — the JWT
  authentication middleware (`isAuthenticated`, `whiteListEndpoints`);
* `src/backend/src/modules/urls/controller.ts` — the short-URL route
  handlers (`createShortUrl`, `getShortUrl`, `getAllShortUrlsByUser`);
* the URL service layer (`create` / `get`) and the response utilities
  (`sendResponse`, `handleCustomError`), which are not part of the
  provided sources and are therefore modelled from the specification
  where noted.

Pure functions of the source become Lean functions; the Express
request/response objects become explicit data.  Effects observable to
clients (the HTTP response sent, whether `next()` was called, which
service-layer functions were invoked and with which arguments) are
returned as data so that theorems can speak about them.
-/

/-- Claims decoded from an access token.  The token codec is opaque to
the middleware; the fields mirror the AuthToken claims of the data
model (userId, email, names). -/
structure AuthClaims where
  userId : String
  email : String
  firstName : String
  lastName : String
deriving DecidableEq, Repr

/-- Data field of the uniform response envelope.  Each constructor is
one concrete object shape the backend puts in the `data` slot. -/
inductive RespData where
  /-- the object with a single numeric tokenExpired field, sent by the
  auth middleware on 401 -/
  | tokenFlag (tokenExpired : Nat)
  /-- the empty object -/
  | emptyObj
  /-- the object holding the shortUrl returned by create -/
  | shortUrlData (shortUrl : String)
  /-- the object holding the originalUrl returned by get -/
  | originalUrlData (originalUrl : String)
deriving DecidableEq, Repr

/-- Message field of the envelope: either a plain string or, on 422
validation failures, the extracted error list passed in the message
position by the controller. -/
inductive RespMessage where
  | text (s : String)
  | errorList (errors : List String)
deriving DecidableEq, Repr

/-- An HTTP response as assembled by the backend: status code, data
object and message. -/
structure Response where
  status : Nat
  data : RespData
  message : RespMessage
deriving DecidableEq, Repr

/-- Embedding of `sendResponse(res, status, data, message)` from
`src/backend/src/utils`: it serialises its arguments into the uniform
envelope and sends it; here it constructs the `Response` value. -/
def sendResponse (status : Nat) (data : RespData) (message : RespMessage) : Response :=
  ⟨status, data, message⟩

/-- Embedding of `HttpStatusCode.Unauthorized` (401). -/
def HttpStatusCode.Unauthorized : Nat := 401

/-- Embedding of `whiteListEndpoints` from
`src/backend/src/middlewares/authenticated.ts` line 3: the fixed list
of paths exempt from authentication. -/
def whiteListEndpoints : List String := ["/urls/short"]

/-- The part of the Express request the auth middleware reads:
the Authorization header (absent headers are `none`) and `req.url`. -/
structure AuthRequest where
  authorization : Option String
  url : String
deriving DecidableEq, Repr

/-- Outcome of running the middleware on one request. -/
inductive MwOutcome where
  /-- `next()` was called; `user` is the value stored in `req.user`
  (`none` when the middleware passed through without decoding). -/
  | next (user : Option AuthClaims)
  /-- a response was sent via `sendResponse`. -/
  | responded (r : Response)
  /-- the middleware returned without sending a response and without
  calling `next()` (the catch block matched no error name and control
  fell through to the final `return 0`). -/
  | noResponse
deriving DecidableEq, Repr

/-- Result of the middleware together with whether the token codec
(`decryptAccessToken`) was invoked during the run. -/
structure MwResult where
  outcome : MwOutcome
  codecInvoked : Bool
deriving DecidableEq, Repr

/-- JavaScript falsiness of the header value as tested by `!token`:
an absent header and an empty-string header are both falsy. -/
def jsFalsy : Option String → Bool
  | none => true
  | some s => s = ""

/-- Embedding of `isAuthenticated` from
`src/backend/src/middlewares/authenticated.ts`.  The token codec is a
parameter `decrypt` returning either the decoded claims or the `name`
of the thrown error.  Branch by branch:

* `!token`: if `req.url` is white-listed, `next()`; else 401 with
  tokenExpired 0 and message Failed to Authenticate;
* otherwise `decryptAccessToken(token)` is called on the raw header
  value (no Bearer-prefix handling in the source);
* on success `req.user = decoded; next()`;
* in the catch block the error name selects among Token Expired
  (tokenExpired 1), Corrupt Token (tokenExpired 0) and validationError
  (tokenExpired 0), each a 401; any other error name sends nothing and
  the function returns 0. -/
def isAuthenticated (decrypt : String → Except String AuthClaims)
    (req : AuthRequest) : MwResult :=
  if jsFalsy req.authorization then
    if whiteListEndpoints.contains req.url then
      ⟨.next none, false⟩
    else
      ⟨.responded (sendResponse HttpStatusCode.Unauthorized (.tokenFlag 0)
        (.text "Failed to Authenticate")), false⟩
  else
    match req.authorization with
    | none => ⟨.noResponse, false⟩
    | some token =>
      match decrypt token with
      | .ok decoded => ⟨.next (some decoded), true⟩
      | .error name =>
        if name = "TokenExpiredError" then
          ⟨.responded (sendResponse HttpStatusCode.Unauthorized (.tokenFlag 1)
            (.text "Token Expired")), true⟩
        else if name = "JsonWebTokenError" then
          ⟨.responded (sendResponse HttpStatusCode.Unauthorized (.tokenFlag 0)
            (.text "Corrupt Token")), true⟩
        else if name = "validationError" then
          ⟨.responded (sendResponse HttpStatusCode.Unauthorized (.tokenFlag 0)
            (.text "validationError")), true⟩
        else
          ⟨.noResponse, true⟩

/-- Modelled from the spec: the Token Codec `verify` direction
(`decryptAccessToken` in `src/backend/src/utils/encryption.ts`, not
among the provided sources).  A token of the JWT library fails with a
TokenExpiredError once past its expiry and with a JsonWebTokenError
when the signature or structure is invalid; otherwise the embedded
claims are returned.  This concrete instance accepts exactly the
strings tagged valid and classifies the rest. -/
def specDecrypt : String → Except String AuthClaims := fun t =>
  if t = "Bearer valid-token" then
    .ok ⟨"u1", "a@b.com", "Ada", "L"⟩
  else if t = "Bearer expired-token" then
    .error "TokenExpiredError"
  else
    .error "JsonWebTokenError"

/-! ## URL service layer

The service functions `create` and `get` imported by
`src/backend/src/modules/urls/controller.ts` from `./services` are not
among the provided sources; they are modelled from the specification
(section 4.3 URL Service). -/

/-- One persisted short-URL mapping, the ShortUrlMapping record of the
data model: short code, original URL and owner. -/
structure Mapping where
  shortCode : String
  originalUrl : String
  ownerUserId : String
deriving DecidableEq, Repr

/-- The mapping store: the collection of persisted short-URL
mappings. -/
structure UrlStore where
  mappings : List Mapping
deriving DecidableEq, Repr

/-- Error kinds raised by the URL service, per the error taxonomy:
InvalidUrl when the submitted URL does not parse as absolute, NotFound
when no mapping exists for a code. -/
inductive ServiceError where
  | invalidUrl
  | notFound
deriving DecidableEq, Repr

/-- Modelled from the spec: a valid absolute URL is one carrying an
explicit http or https scheme (the spec requires that `originalUrl`
parse as a well-formed absolute URL before persistence).  Stated over
the character list of the string so that it evaluates by structural
recursion. -/
def validAbsoluteUrl (s : String) : Bool :=
  "http://".data.isPrefixOf s.data || "https://".data.isPrefixOf s.data

/-- Look a short code up in the store, returning the first mapping
holding it. -/
def UrlStore.find (store : UrlStore) (code : String) : Option Mapping :=
  store.mappings.find? (fun m => m.shortCode = code)

namespace UrlService

/-- Modelled from the spec: the URL service `create` operation
(section 4.3), as called by the controller with `originalUrl`,
`baseURL` and `userId`.  It fails with InvalidUrl when `originalUrl`
is not an absolute URL; otherwise it obtains a short code from the
generator `gen`, persists the new mapping and returns the new store,
the code and `baseURL` concatenated with the code.  Code generation is
kept as a parameter because the spec accepts any policy that
guarantees the code is unused before persistence; theorems take that
freshness as a hypothesis. -/
def create (gen : UrlStore → String) (store : UrlStore)
    (originalUrl baseURL userId : String) :
    Except ServiceError (UrlStore × String × String) :=
  if validAbsoluteUrl originalUrl then
    let code := gen store
    .ok (⟨⟨code, originalUrl, userId⟩ :: store.mappings⟩, code,
      baseURL ++ "/" ++ code)
  else
    .error .invalidUrl

/-- Modelled from the spec: the URL service `get` operation (section
4.3): fails with NotFound when no mapping exists for `code`, otherwise
returns the stored original URL. -/
def get (store : UrlStore) (code : String) : Except ServiceError String :=
  match store.find code with
  | some m => .ok m.originalUrl
  | none => .error .notFound

end UrlService

/-! ## Route handlers (controller) -/

namespace reponseMessages

/-- Modelled from the spec: the generic success message constant
`reponseMessages.genericSuccess` from
`src/backend/src/constants/responseMessages.ts` (not among the
provided sources). -/
def genericSuccess : RespMessage := .text "Success"

end reponseMessages

/-- Modelled from the spec: `handleCustomError` from
`src/backend/src/utils/handleCustomErrors.ts` (not among the provided
sources): the fixed mapping from error kind to HTTP status of section
4.4 — InvalidUrl to 422, NotFound to 404 — serialised through the
uniform envelope. -/
def handleCustomError : ServiceError → Response
  | .invalidUrl => sendResponse 422 .emptyObj (.text "Invalid URL")
  | .notFound => sendResponse 404 .emptyObj (.text "Not Found")

/-- One invocation of a service-layer operation, with the arguments it
received; route handlers record these so theorems can speak about
which service calls a request caused. -/
inductive ServiceCall where
  | createCall (originalUrl baseURL userId : String)
  | getCall (urlId : String)
deriving DecidableEq, Repr

/-- The part of the Express request the URL route handlers read: the
route-level validation outcome (`validationResult(req)`, whose
validators run before the handler), `req.body.originalUrl`, the origin
header (`req.get('origin')`), `req.params.urlId` and `req.user` as
possibly attached by the auth middleware. -/
structure CtrlRequest where
  validationErrors : List String
  originalUrl : String
  origin : String
  urlId : String
  user : Option AuthClaims
deriving DecidableEq, Repr

/-- Result of a route handler: the response sent and the list of
service-layer calls performed, in order. -/
structure CtrlResult where
  response : Response
  calls : List ServiceCall
deriving DecidableEq, Repr

/-- Embedding of `createShortUrl` from
`src/backend/src/modules/urls/controller.ts`: when route validation
failed, respond 422 with the extracted errors and the empty data
object; otherwise read `originalUrl` from the body, the origin header
as `baseURL`, set `userId` to the empty string (reading `req.user`
only for a console log), call the service `create` and respond 201
with its data, mapping a service error through `handleCustomError`.
The updated store is returned alongside. -/
def createShortUrl (gen : UrlStore → String) (store : UrlStore)
    (req : CtrlRequest) : UrlStore × CtrlResult :=
  if req.validationErrors ≠ [] then
    (store, ⟨sendResponse 422 .emptyObj (.errorList req.validationErrors), []⟩)
  else
    let userId := ""
    match UrlService.create gen store req.originalUrl req.origin userId with
    | .ok (store1, _code, shortUrl) =>
      (store1, ⟨sendResponse 201 (.shortUrlData shortUrl) reponseMessages.genericSuccess,
        [.createCall req.originalUrl req.origin userId]⟩)
    | .error e =>
      (store, ⟨handleCustomError e, [.createCall req.originalUrl req.origin userId]⟩)

/-- Embedding of `getShortUrl` from
`src/backend/src/modules/urls/controller.ts`: when route validation
failed, respond 422 with the extracted errors; otherwise call the
service `get` on `req.params.urlId` and respond 201 with the original
URL, mapping a service error through `handleCustomError`. -/
def getShortUrl (store : UrlStore) (req : CtrlRequest) : CtrlResult :=
  if req.validationErrors ≠ [] then
    ⟨sendResponse 422 .emptyObj (.errorList req.validationErrors), []⟩
  else
    match UrlService.get store req.urlId with
    | .ok originalUrl =>
      ⟨sendResponse 201 (.originalUrlData originalUrl) reponseMessages.genericSuccess,
        [.getCall req.urlId]⟩
    | .error e =>
      ⟨handleCustomError e, [.getCall req.urlId]⟩

/-- Embedding deliberately kept textually parallel: `getAllShortUrlsByUser` from
`src/backend/src/modules/urls/controller.ts`: its body is line for
line that of `getShortUrl` — it validates, calls the service `get` on
`req.params.urlId` and responds 201 with the single original URL. -/
def getAllShortUrlsByUser (store : UrlStore) (req : CtrlRequest) : CtrlResult :=
  if req.validationErrors ≠ [] then
    ⟨sendResponse 422 .emptyObj (.errorList req.validationErrors), []⟩
  else
    match UrlService.get store req.urlId with
    | .ok originalUrl =>
      ⟨sendResponse 201 (.originalUrlData originalUrl) reponseMessages.genericSuccess,
        [.getCall req.urlId]⟩
    | .error e =>
      ⟨handleCustomError e, [.getCall req.urlId]⟩

/-! ## Auxiliary concrete instances used by counterexample theorems -/

/-- Modelled from the spec: a token-codec run whose thrown error has
the name NotBeforeError (the JWT library raises it for tokens that are
not yet valid).  None of the three error names handled by the
middleware's catch block matches it. -/
def notBeforeDecrypt : String → Except String AuthClaims := fun _ =>
  .error "NotBeforeError"

/-! ## Theorems for the claims -/

/-- C1.  The claim states that a request whose Authorization header
lacks the Bearer prefix is answered 401 without invoking the token
codec.  The source has no Bearer-prefix check at all: any non-empty
header value is passed to `decryptAccessToken` unchanged, so the codec
IS invoked, and the 401 (Corrupt Token) only arises from the codec
rejecting the value.  This theorem evaluates the middleware at the
failing input: header `abc.def.ghi` on a non-exempt path, with the
spec-modelled codec classifying it malformed. -/
theorem auth_no_bearer_check_codec_invoked :
    isAuthenticated specDecrypt ⟨some "abc.def.ghi", "/api/v1/urls/x"⟩ =
      ⟨.responded (sendResponse 401 (.tokenFlag 0) (.text "Corrupt Token")), true⟩ := by
  decide

/-- C3.  With the Authorization header absent, the middleware calls
`next()` (without attaching a user and without invoking the codec)
exactly when the path is in `whiteListEndpoints`, and otherwise sends
401 with tokenExpired 0 and message Failed to Authenticate, again
without invoking the codec. -/
theorem absent_header_whitelist_decides (decrypt : String → Except String AuthClaims)
    (req : AuthRequest) (habs : req.authorization = none) :
    (req.url ∈ whiteListEndpoints →
      isAuthenticated decrypt req = ⟨.next none, false⟩) ∧
    (req.url ∉ whiteListEndpoints →
      isAuthenticated decrypt req =
        ⟨.responded (sendResponse 401 (.tokenFlag 0)
          (.text "Failed to Authenticate")), false⟩) := by
  constructor <;> intro h <;>
    simp_all [isAuthenticated, jsFalsy, HttpStatusCode.Unauthorized,
      List.elem_iff]

/-- Witness for C3 at concrete requests: the exempt path `/urls/short`
proceeds, the path `/foo` is refused. -/
theorem absent_header_whitelist_decides_witness :
    isAuthenticated specDecrypt ⟨none, "/urls/short"⟩ = ⟨.next none, false⟩ ∧
    isAuthenticated specDecrypt ⟨none, "/foo"⟩ =
      ⟨.responded (sendResponse 401 (.tokenFlag 0)
        (.text "Failed to Authenticate")), false⟩ :=
  ⟨(absent_header_whitelist_decides specDecrypt ⟨none, "/urls/short"⟩ rfl).1
      (by simp [whiteListEndpoints]),
   (absent_header_whitelist_decides specDecrypt ⟨none, "/foo"⟩ rfl).2
      (by simp [whiteListEndpoints])⟩

/-- C4.  The claim states that every error raised during token
verification yields a 401 response.  The catch block only matches the
error names TokenExpiredError, JsonWebTokenError and validationError;
for any other error name it falls through to `return 0`, sending no
response and not calling `next()`.  Evaluated at the failing input: a
verification error named NotBeforeError on a non-exempt request. -/
theorem unmatched_error_name_sends_nothing :
    isAuthenticated notBeforeDecrypt ⟨some "sometoken", "/api/v1/urls/x"⟩ =
      ⟨.noResponse, true⟩ := by
  decide

/-- C5.  For a request carrying a (non-falsy) token: rejection as
expired (error name TokenExpiredError) yields 401 with tokenExpired 1
and message Token Expired; rejection as malformed (JsonWebTokenError)
yields 401 with tokenExpired 0 and message Corrupt Token; and among
all responses the middleware can send on this request, the data field
tokenFlag 1 appears exactly when the codec rejected the token as
expired — the expired case is distinguishable from every other
401. -/
theorem expired_distinguishable (decrypt : String → Except String AuthClaims)
    (req : AuthRequest) (t : String)
    (ha : req.authorization = some t) (hne : t ≠ "") :
    (decrypt t = .error "TokenExpiredError" →
      isAuthenticated decrypt req =
        ⟨.responded (sendResponse 401 (.tokenFlag 1) (.text "Token Expired")), true⟩) ∧
    (decrypt t = .error "JsonWebTokenError" →
      isAuthenticated decrypt req =
        ⟨.responded (sendResponse 401 (.tokenFlag 0) (.text "Corrupt Token")), true⟩) ∧
    (∀ r, (isAuthenticated decrypt req).outcome = .responded r →
      (r.data = .tokenFlag 1 ↔ decrypt t = .error "TokenExpiredError")) := by
  refine ⟨fun hd => ?_, fun hd => ?_, fun r hr => ?_⟩
  · simp [isAuthenticated, ha, jsFalsy, hne, hd, HttpStatusCode.Unauthorized,
      sendResponse]
  · simp [isAuthenticated, ha, jsFalsy, hne, hd, HttpStatusCode.Unauthorized,
      sendResponse]
  · simp only [isAuthenticated, ha, jsFalsy] at hr
    rw [if_neg (by simp [hne])] at hr
    cases hd : decrypt t with
    | ok c => simp [hd] at hr
    | error name =>
      simp only [hd] at hr
      by_cases h1 : name = "TokenExpiredError"
      · subst h1
        simp at hr
        subst hr
        simp [sendResponse]
      · by_cases h2 : name = "JsonWebTokenError"
        · subst h2
          simp at hr
          subst hr
          simp [sendResponse, h1]
        · by_cases h3 : name = "validationError"
          · subst h3
            simp at hr
            subst hr
            simp [sendResponse, h1]
          · simp [h1, h2, h3] at hr

/-- Witness for C5 at concrete inputs: the spec-modelled codec rejects
`Bearer expired-token` as expired and `garbage` as malformed. -/
theorem expired_distinguishable_witness :
    isAuthenticated specDecrypt ⟨some "Bearer expired-token", "/x"⟩ =
      ⟨.responded (sendResponse 401 (.tokenFlag 1) (.text "Token Expired")), true⟩ ∧
    isAuthenticated specDecrypt ⟨some "garbage", "/x"⟩ =
      ⟨.responded (sendResponse 401 (.tokenFlag 0) (.text "Corrupt Token")), true⟩ :=
  ⟨(expired_distinguishable specDecrypt ⟨some "Bearer expired-token", "/x"⟩
      "Bearer expired-token" rfl (by decide)).1 rfl,
   (expired_distinguishable specDecrypt ⟨some "garbage", "/x"⟩
      "garbage" rfl (by decide)).2.1 rfl⟩

/-- C7.  When the codec accepts the presented token, the middleware
stores the decoded claims in `req.user` and calls `next()`; the whole
observable result is exactly that — no response is sent and nothing
else is touched. -/
theorem success_attaches_user (decrypt : String → Except String AuthClaims)
    (req : AuthRequest) (t : String) (c : AuthClaims)
    (ha : req.authorization = some t) (hne : t ≠ "")
    (hok : decrypt t = .ok c) :
    isAuthenticated decrypt req = ⟨.next (some c), true⟩ := by
  simp [isAuthenticated, ha, jsFalsy, hne, hok]

/-- Witness for C7: the spec-modelled codec accepts
`Bearer valid-token` and the decoded claims land in `req.user`. -/
theorem success_attaches_user_witness :
    isAuthenticated specDecrypt ⟨some "Bearer valid-token", "/api/v1/urls/x"⟩ =
      ⟨.next (some ⟨"u1", "a@b.com", "Ada", "L"⟩), true⟩ :=
  success_attaches_user specDecrypt ⟨some "Bearer valid-token", "/api/v1/urls/x"⟩
    "Bearer valid-token" ⟨"u1", "a@b.com", "Ada", "L"⟩ rfl (by decide) rfl

/-- C8.  The whitelist exemption is tested only inside the
absent-header branch: a request to an exempt path that does carry a
(non-falsy) Authorization header still invokes the token codec, and if
the codec rejects the token as expired or malformed the request is
answered 401 rather than passed through. -/
theorem exempt_path_with_header_still_verified
    (decrypt : String → Except String AuthClaims)
    (req : AuthRequest) (t : String)
    (hw : req.url ∈ whiteListEndpoints)
    (ha : req.authorization = some t) (hne : t ≠ "") :
    (isAuthenticated decrypt req).codecInvoked = true ∧
    ((decrypt t = .error "TokenExpiredError" ∨
        decrypt t = .error "JsonWebTokenError") →
      ∃ r, (isAuthenticated decrypt req).outcome = .responded r ∧
        r.status = 401) := by
  constructor
  · simp only [isAuthenticated, ha, jsFalsy]
    rw [if_neg (by simp [hne])]
    cases decrypt t with
    | ok c => rfl
    | error name =>
      by_cases h1 : name = "TokenExpiredError" <;>
        by_cases h2 : name = "JsonWebTokenError" <;>
          by_cases h3 : name = "validationError" <;>
            simp [h1, h2, h3]
  · rintro (hd | hd) <;>
      simp [isAuthenticated, ha, jsFalsy, hne, hd, HttpStatusCode.Unauthorized,
        sendResponse]

/-- Witness for C8: a request to the exempt path `/urls/short`
carrying an expired token is answered 401, not passed through. -/
theorem exempt_path_with_header_still_verified_witness :
    (isAuthenticated specDecrypt
        ⟨some "Bearer expired-token", "/urls/short"⟩).codecInvoked = true ∧
    ∃ r, (isAuthenticated specDecrypt
        ⟨some "Bearer expired-token", "/urls/short"⟩).outcome = .responded r ∧
      r.status = 401 :=
  ⟨(exempt_path_with_header_still_verified specDecrypt
      ⟨some "Bearer expired-token", "/urls/short"⟩ "Bearer expired-token"
      (by simp [whiteListEndpoints]) rfl (by decide)).1,
   (exempt_path_with_header_still_verified specDecrypt
      ⟨some "Bearer expired-token", "/urls/short"⟩ "Bearer expired-token"
      (by simp [whiteListEndpoints]) rfl (by decide)).2 (.inl rfl)⟩

/-- C2.  Round-trip law of the URL service: for every valid absolute
URL submitted to `create`, the returned short code resolves via `get`
on the updated store to exactly that URL. -/
theorem create_get_roundtrip (gen : UrlStore → String) (store : UrlStore)
    (u baseURL userId : String) (hv : validAbsoluteUrl u = true) :
    ∃ store1 shortUrl,
      UrlService.create gen store u baseURL userId =
        .ok (store1, gen store, shortUrl) ∧
      UrlService.get store1 (gen store) = .ok u := by
  refine ⟨⟨⟨gen store, u, userId⟩ :: store.mappings⟩, baseURL ++ "/" ++ gen store,
    ?_, ?_⟩
  · simp [UrlService.create, hv]
  · simp [UrlService.get, UrlStore.find, List.find?]

/-- Witness for C2: the concrete scenario of the spec —
`https://example.com/a/b` shortened against base `https://short.ly`
with a fixed code generator, then resolved. -/
theorem create_get_roundtrip_witness :
    validAbsoluteUrl "https://example.com/a/b" = true ∧
    ∃ store1 shortUrl,
      UrlService.create (fun _ => "abc123") ⟨[]⟩ "https://example.com/a/b"
          "https://short.ly" "" =
        .ok (store1, "abc123", shortUrl) ∧
      UrlService.get store1 "abc123" = .ok "https://example.com/a/b" :=
  ⟨by decide,
   create_get_roundtrip (fun _ => "abc123") ⟨[]⟩ "https://example.com/a/b"
     "https://short.ly" "" (by decide)⟩

/-- C6.  When route-level validation failed (the error list is
non-empty), each URL handler responds 422 carrying the extracted
errors and performs no service-layer call: the call list is empty, so
neither `create` nor `get` is reached. -/
theorem validation_failure_short_circuits (gen : UrlStore → String)
    (store : UrlStore) (req : CtrlRequest)
    (hv : req.validationErrors ≠ []) :
    createShortUrl gen store req =
      (store, ⟨sendResponse 422 .emptyObj (.errorList req.validationErrors), []⟩) ∧
    getShortUrl store req =
      ⟨sendResponse 422 .emptyObj (.errorList req.validationErrors), []⟩ ∧
    getAllShortUrlsByUser store req =
      ⟨sendResponse 422 .emptyObj (.errorList req.validationErrors), []⟩ := by
  refine ⟨?_, ?_, ?_⟩ <;>
    simp [createShortUrl, getShortUrl, getAllShortUrlsByUser, hv]

/-- Witness for C6 at a concrete request with one validation error. -/
theorem validation_failure_short_circuits_witness :
    createShortUrl (fun _ => "abc123") ⟨[]⟩
        ⟨["originalUrl is required"], "", "", "", none⟩ =
      (⟨[]⟩, ⟨sendResponse 422 .emptyObj
        (.errorList ["originalUrl is required"]), []⟩) ∧
    getShortUrl ⟨[]⟩ ⟨["originalUrl is required"], "", "", "", none⟩ =
      ⟨sendResponse 422 .emptyObj (.errorList ["originalUrl is required"]), []⟩ ∧
    getAllShortUrlsByUser ⟨[]⟩ ⟨["originalUrl is required"], "", "", "", none⟩ =
      ⟨sendResponse 422 .emptyObj (.errorList ["originalUrl is required"]), []⟩ :=
  validation_failure_short_circuits (fun _ => "abc123") ⟨[]⟩
    ⟨["originalUrl is required"], "", "", "", none⟩ (by decide)

/-- C9.  `getAllShortUrlsByUser` and `getShortUrl` are extensionally
equal: on every store and request they perform the same validation,
the same single `get` call on `req.params.urlId` and send the same 201
response with the one original URL — the get-all-by-user operation
never returns a list. -/
theorem getAll_equals_getOne (store : UrlStore) (req : CtrlRequest) :
    getAllShortUrlsByUser store req = getShortUrl store req := rfl

/-- C10.  Every `create` call `createShortUrl` issues carries the
empty string as userId, and the handler's behaviour does not depend on
the authenticated identity attached to the request (`req.user` is read
only for a console log): every persisted mapping it creates has an
empty owner. -/
theorem create_userId_always_empty (gen : UrlStore → String)
    (store : UrlStore) (req : CtrlRequest) :
    (∀ ou b uid, ServiceCall.createCall ou b uid ∈
        (createShortUrl gen store req).2.calls →
      uid = "") ∧
    (∀ u, createShortUrl gen store { req with user := u } =
      createShortUrl gen store req) ∧
    (∀ m, m ∈ (createShortUrl gen store req).1.mappings →
        m ∉ store.mappings →
      m.ownerUserId = "") := by
  refine ⟨fun ou b uid hmem => ?_, fun u => ?_, fun m hm hnew => ?_⟩
  · unfold createShortUrl at hmem
    split at hmem
    · simp at hmem
    · unfold UrlService.create at hmem
      split at hmem <;> simp at hmem <;> exact hmem.2.2
  · cases req
    rfl
  · unfold createShortUrl at hm
    split at hm
    · exact absurd hm hnew
    · unfold UrlService.create at hm
      split at hm
      · simp at hm
        rcases hm with h | h
        · subst h
          rfl
        · exact absurd h hnew
      · exact absurd hm hnew

/-- Witness for C10: a concrete request carrying an authenticated
user still leads to a `create` call whose userId is empty. -/
theorem create_userId_always_empty_witness :
    ServiceCall.createCall "https://example.com/a/b" "https://short.ly" "" ∈
      (createShortUrl (fun _ => "abc123") ⟨[]⟩
        ⟨[], "https://example.com/a/b", "https://short.ly", "",
          some ⟨"u1", "a@b.com", "Ada", "L"⟩⟩).2.calls ∧
    ("" : String) = "" :=
  ⟨by decide,
   (create_userId_always_empty (fun _ => "abc123") ⟨[]⟩
     ⟨[], "https://example.com/a/b", "https://short.ly", "",
       some ⟨"u1", "a@b.com", "Ada", "L"⟩⟩).1
     "https://example.com/a/b" "https://short.ly" "" (by decide)⟩
